import Mathlib

/-!
Shallow embedding of the homework-status polling bot
(`homework.py` / `exceptions.py`).

Python values reaching the pipeline are modelled by `PyVal`; Python
exceptions raised by the bot's functions are modelled by `PyExc`.
`parse_status`, `check_response`, `get_api_answer`, `check_tokens` and
`send_message` are direct translations of the source functions; the
body of `main`'s `while True:` loop is modelled by `mainIter` (one
iteration, with the HTTP world and the clock reading supplied as
oracles) and `mainLoop` (a finite prefix of the infinite loop).
-/

/-- Model of the Python/JSON values that flow through the bot. -/
inductive PyVal where
  | none
  | bool (b : Bool)
  | int (n : Int)
  | str (s : String)
  | list (xs : List PyVal)
  | dict (entries : List (String × PyVal))

/-- First-match lookup in an association list, modelling Python
`d[k]` / `d.get(k)` on a string-keyed dict literal. -/
def lookupKey {α : Type} : List (String × α) → String → Option α
  | [], _ => Option.none
  | (k, v) :: rest, key => if k = key then some v else lookupKey rest key

/-- Python `k in d` membership test. -/
def containsKey {α : Type} (entries : List (String × α)) (key : String) : Bool :=
  (lookupKey entries key).isSome

/-- The static verdict table `HOMEWORK_STATUSES` from `homework.py`. -/
def HOMEWORK_STATUSES : List (String × String) :=
  [("approved", "Работа проверена: ревьюеру всё понравилось. Ура!"),
   ("reviewing", "Работа взята на проверку ревьюером."),
   ("rejected", "Работа проверена: у ревьюера есть замечания.")]

/-- Python `is None` identity test. -/
def pyIsNone : PyVal → Bool
  | .none => true
  | _ => false

mutual

/-- Python `repr` of a modelled value. -/
def pyRepr : PyVal → String
  | .none => "None"
  | .bool b => if b then "True" else "False"
  | .int n => toString n
  | .str s => "'" ++ s ++ "'"
  | .list xs => "[" ++ pyReprElems xs ++ "]"
  | .dict es => "\x7b" ++ pyReprEntries es ++ "\x7d"

/-- Comma-separated reprs of a list's elements. -/
def pyReprElems : List PyVal → String
  | [] => ""
  | [x] => pyRepr x
  | x :: y :: t => pyRepr x ++ ", " ++ pyReprElems (y :: t)

/-- Comma-separated `'key': repr(value)` pairs of a dict's entries. -/
def pyReprEntries : List (String × PyVal) → String
  | [] => ""
  | [(k, v)] => "'" ++ k ++ "': " ++ pyRepr v
  | (k, v) :: e :: t => "'" ++ k ++ "': " ++ pyRepr v ++ ", " ++ pyReprEntries (e :: t)

end

/-- Python `str` of a modelled value (as used by f-string interpolation). -/
def pyValStr : PyVal → String
  | .str s => s
  | v => pyRepr v

/-- Python type name, used in the `AttributeError` message. -/
def pyTypeName : PyVal → String
  | .none => "NoneType"
  | .bool _ => "bool"
  | .int _ => "int"
  | .str _ => "str"
  | .list _ => "list"
  | .dict _ => "dict"

/-- The exceptions the bot's functions can raise.
`serverError`, `httpStatusError`, `checkApiAnswerError` and
`parseError` come from `exceptions.py`; `typeError` models the
`TypeError` raised by `check_response` on a non-dict input;
`keyErrorMissingName` and `keyErrorUnknownStatus` model the two
distinct `KeyError` raise sites in `parse_status`; `attributeError`
models the `AttributeError` Python raises when `.get` is called on a
non-dict homework record. -/
inductive PyExc where
  | serverError (msg : String)
  | httpStatusError (code : Nat)
  | checkApiAnswerError (msg : String)
  | typeError (msg : String)
  | parseError (msg : String)
  | keyErrorMissingName
  | keyErrorUnknownStatus (msg : String)
  | attributeError (msg : String)
deriving Repr, DecidableEq

/-- Python `str(error)` of a raised exception, as interpolated by
`f'Сбой в работе программы: \x7berror\x7d'` in `main`.  `str` of a
`KeyError` wraps its argument in quotes. -/
def pyStr : PyExc → String
  | .serverError m => m
  | .httpStatusError code => "Сбой! Код ответа: " ++ toString code ++ ".!"
  | .checkApiAnswerError m => m
  | .typeError m => m
  | .parseError m => m
  | .keyErrorMissingName => "'Домашней работе не присвоено название'"
  | .keyErrorUnknownStatus m => "'" ++ m ++ "'"
  | .attributeError m => m

/-- Python `str` of the exception raised by
`HOMEWORK_STATUSES[homework_status]` when the lookup fails: `KeyError`
shows the repr of the missing key; an unhashable key raises
`TypeError` instead. -/
def statusLookupErrStr : PyVal → String
  | .list _ => "unhashable type: 'list'"
  | .dict _ => "unhashable type: 'dict'"
  | v => pyRepr v

/-- The verdict-table lookup `HOMEWORK_STATUSES[homework_status]`:
only the three known string statuses succeed. -/
def statusTableLookup : PyVal → Option String
  | .str s => lookupKey HOMEWORK_STATUSES s
  | _ => Option.none

/-- `parse_status` from `homework.py`: `.get` both fields (a missing
key and a key bound to `None` both yield `None`), check `status` then
`homework_name` against `None`, then look the status up in the verdict
table and compose the message. -/
def parse_status (homework : PyVal) : Except PyExc String :=
  match homework with
  | .dict entries =>
    let homework_status := (lookupKey entries "status").getD PyVal.none
    let homework_name := (lookupKey entries "homework_name").getD PyVal.none
    if pyIsNone homework_status then
      .error (.parseError "Домашней работе не присвоен статус")
    else if pyIsNone homework_name then
      .error .keyErrorMissingName
    else
      match statusTableLookup homework_status with
      | some verdict =>
          .ok ("Изменился статус проверки работы \"" ++ pyValStr homework_name ++ "\". "
                ++ verdict)
      | Option.none =>
          .error (.keyErrorUnknownStatus
            ("Домашней работе присвоен неизвестный статус. "
              ++ statusLookupErrStr homework_status))
  | v => .error (.attributeError
      ("'" ++ pyTypeName v ++ "' object has no attribute 'get'"))

/-- `check_response` from `homework.py`: reject non-dict input with
`TypeError`, then require the `homeworks` and `current_date` keys and
that `homeworks` is a list, raising `CheckApiAnswerError` otherwise;
on success return the `homeworks` list unchanged. -/
def check_response (response : PyVal) : Except PyExc (List PyVal) :=
  match response with
  | .dict entries =>
    match lookupKey entries "homeworks" with
    | Option.none => .error (.checkApiAnswerError "В словаре отсутвует ключ homeworks")
    | some hw =>
      match lookupKey entries "current_date" with
      | Option.none => .error (.checkApiAnswerError "В словаре отсутвует ключ current_date")
      | some _ =>
        match hw with
        | .list hs => .ok hs
        | _ => .error (.checkApiAnswerError "Домашние работы пришли не в виде списка")
  | _ => .error (.typeError "Ответ передан не в формате dict")

/-- Oracle describing the outcome of the HTTP GET issued by
`get_api_answer`: either the transport fails, or a response arrives
with a status code and a body whose JSON decoding succeeds or fails. -/
inductive HttpOutcome where
  | transportFail (err : String)
  | response (statusCode : Nat) (body : Except String PyVal)

/-- `get_api_answer` from `homework.py`: a transport failure raises
`ServerError`; a status code other than `HTTPStatus.OK` (200) raises
`HTTPStatusError` carrying that code; a 200 response whose body fails
to decode as JSON raises `ServerError`; otherwise the decoded JSON is
returned. -/
def get_api_answer (world : HttpOutcome) : Except PyExc PyVal :=
  match world with
  | .transportFail err =>
      .error (.serverError ("Сбой! Сервер не доступен! " ++ err ++ "."))
  | .response code body =>
      if code ≠ 200 then .error (.httpStatusError code)
      else
        match body with
        | .ok j => .ok j
        | .error err =>
            .error (.serverError ("Сбой! Данные получены не в формате json! " ++ err ++ "."))

/-- `send_message` from `homework.py`: attempt the bot call and swallow
any failure (Python `except Exception`), so the function always
returns normally. `botOutcome` is the oracle for the underlying
`bot.send_message` call. -/
def send_message (botOutcome : Except String Unit) (_message : String) : Except PyExc Unit :=
  match botOutcome with
  | .ok _ => .ok ()
  | .error _ => .ok ()

/-- Python truthiness of an environment value: `None` and the empty
string are falsy. -/
def truthyStr : Option String → Bool
  | Option.none => false
  | some s => !s.isEmpty

/-- `check_tokens` from `homework.py`:
`all([PRACTICUM_TOKEN, TELEGRAM_TOKEN, TELEGRAM_CHAT_ID])`. -/
def check_tokens (practicumToken telegramToken telegramChatId : Option String) : Bool :=
  truthyStr practicumToken && truthyStr telegramToken && truthyStr telegramChatId

/-- The `for homework in homeworks:` loop inside `main`'s `try` block:
parse each record and hand the message to `send_message`.  Returns the
messages whose delivery was attempted, in order, and the first
uncaught exception if a `parse_status` call raised (aborting the
loop). -/
def processHomeworks : List PyVal → List String × Option PyExc
  | [] => ([], Option.none)
  | h :: t =>
    match parse_status h with
    | .error e => ([], some e)
    | .ok msg =>
        let rest := processHomeworks t
        (msg :: rest.1, rest.2)

/-- The `try` block of one iteration of `main`'s loop: fetch, validate,
then notify per record.  Returns the attempted notification messages
and the exception reaching the `except` clause, if any. -/
def iterBody (world : HttpOutcome) : List String × Option PyExc :=
  match get_api_answer world with
  | .error e => ([], some e)
  | .ok response =>
    match check_response response with
    | .error e => ([], some e)
    | .ok homeworks => processHomeworks homeworks

/-- The notification messages attempted during one loop iteration and
the cursor value the next iteration will poll with. -/
structure IterResult where
  sent : List String
  newTs : Int
deriving Repr, DecidableEq

/-- One full iteration of `main`'s `while True:` loop: run the `try`
body; on success advance `current_timestamp` to `now` (the
`int(time.time())` reading at the end of the body); on an exception,
attempt delivery of the formatted failure message and leave the cursor
unchanged. -/
def mainIter (world : HttpOutcome) (currentTimestamp now : Int) : IterResult :=
  match iterBody world with
  | (msgs, Option.none) => ⟨msgs, now⟩
  | (msgs, some e) => ⟨msgs ++ ["Сбой в работе программы: " ++ pyStr e], currentTimestamp⟩

/-- A finite prefix of `main`'s infinite loop: each element of
`oracles` supplies one iteration's HTTP outcome and end-of-iteration
clock reading; the cursor threads from one iteration to the next. -/
def mainLoop : List (HttpOutcome × Int) → Int → List IterResult
  | [], _ => []
  | (w, now) :: rest, ts =>
      let r := mainIter w ts now
      r :: mainLoop rest r.newTs

/-- `main`'s startup followed by the loop: `check_tokens()` is called
but its result is discarded, exactly as in the source, and the loop is
entered regardless. -/
def main_run (practicumToken telegramToken telegramChatId : Option String)
    (oracles : List (HttpOutcome × Int)) (startTs : Int) : List IterResult :=
  let _ := check_tokens practicumToken telegramToken telegramChatId
  mainLoop oracles startTs

/-- A well-formed homework record in the sense of the spec's data
model: a dict carrying a string `homework_name` and a `status` that is
one of the three known values. -/
def wellFormedRecord (h : PyVal) : Bool :=
  match h with
  | .dict entries =>
    match (lookupKey entries "homework_name").getD PyVal.none,
          (lookupKey entries "status").getD PyVal.none with
    | PyVal.str _, PyVal.str s => (lookupKey HOMEWORK_STATUSES s).isSome
    | _, _ => false
  | _ => false

/-- The notification message the spec says a well-formed record
produces: the name and the static table's verdict spliced into the
fixed Russian sentence. -/
def composedMessage (h : PyVal) : String :=
  match h with
  | .dict entries =>
    let nm :=
      match (lookupKey entries "homework_name").getD PyVal.none with
      | PyVal.str s => s
      | _ => ""
    let verdict :=
      match (lookupKey entries "status").getD PyVal.none with
      | PyVal.str s => (lookupKey HOMEWORK_STATUSES s).getD ""
      | _ => ""
    "Изменился статус проверки работы \"" ++ nm ++ "\". " ++ verdict
  | _ => ""

/-! ## Theorems -/

/-- `None is None` evaluates to true. -/
@[simp] theorem pyIsNone_none : pyIsNone PyVal.none = true := rfl

/-- C2 -- For every record mapping with a `homework_name` string and a
`status` among the three known values, `parse_status` returns exactly
the composed Russian sentence with the static table's verdict; in
particular the `proj1`/`approved` example produces the exact message
the spec gives. -/
theorem spec_C2 :
    (∀ (entries : List (String × PyVal)) (nm s verdict : String),
        lookupKey entries "homework_name" = some (PyVal.str nm) →
        lookupKey entries "status" = some (PyVal.str s) →
        lookupKey HOMEWORK_STATUSES s = some verdict →
        parse_status (PyVal.dict entries) =
          Except.ok ("Изменился статус проверки работы \"" ++ nm ++ "\". " ++ verdict)) ∧
    parse_status (PyVal.dict
        [("homework_name", PyVal.str "proj1"), ("status", PyVal.str "approved")]) =
      Except.ok "Изменился статус проверки работы \"proj1\". Работа проверена: ревьюеру всё понравилось. Ура!" := by
  constructor
  · intro entries nm s verdict hnm hst hv
    simp [parse_status, hnm, hst, pyIsNone, statusTableLookup, hv, pyValStr]
  · rfl

/-- Witness for C2 at a concrete record. -/
theorem spec_C2_witness :
    parse_status (PyVal.dict
        [("homework_name", PyVal.str "x"), ("status", PyVal.str "rejected")]) =
      Except.ok ("Изменился статус проверки работы \"" ++ "x" ++ "\". "
        ++ "Работа проверена: у ревьюера есть замечания.") :=
  spec_C2.1 _ "x" "rejected" _ rfl rfl rfl

/-- C3 -- `parse_status` classifies failures exactly as the spec's
taxonomy says: `ParseError` (code: `ParseError`) when `status` is
absent, `MissingFieldError` (code: the `KeyError` raised at the
missing-name site) when `homework_name` is absent, and
`UnknownStatusError` (code: the `KeyError` raised at the
unknown-status site) when the status value is not one of the three
known values; moreover an unknown-status record aborts the per-record
loop with that error, so zero notification attempts are made for that
record. -/
theorem spec_C3 :
    ∀ entries : List (String × PyVal),
    (lookupKey entries "status" = Option.none →
      parse_status (PyVal.dict entries) =
        Except.error (PyExc.parseError "Домашней работе не присвоен статус")) ∧
    (∀ sv, lookupKey entries "status" = some sv → pyIsNone sv = false →
      lookupKey entries "homework_name" = Option.none →
      parse_status (PyVal.dict entries) = Except.error PyExc.keyErrorMissingName) ∧
    (∀ sv nv, lookupKey entries "status" = some sv → pyIsNone sv = false →
      lookupKey entries "homework_name" = some nv → pyIsNone nv = false →
      statusTableLookup sv = Option.none →
      parse_status (PyVal.dict entries) =
        Except.error (PyExc.keyErrorUnknownStatus
          ("Домашней работе присвоен неизвестный статус. " ++ statusLookupErrStr sv)) ∧
      ∀ t : List PyVal, processHomeworks (PyVal.dict entries :: t) =
        ([], some (PyExc.keyErrorUnknownStatus
          ("Домашней работе присвоен неизвестный статус. " ++ statusLookupErrStr sv)))) := by
  intro entries
  refine ⟨fun h => ?_, fun sv hsv hnn hnm => ?_, fun sv nv hsv hnn hnm hnvn htl => ?_⟩
  · simp [parse_status, h]
  · simp [parse_status, hsv, hnn, hnm]
  · have hp : parse_status (PyVal.dict entries) =
        Except.error (PyExc.keyErrorUnknownStatus
          ("Домашней работе присвоен неизвестный статус. " ++ statusLookupErrStr sv)) := by
      simp [parse_status, hsv, hnn, hnm, hnvn, htl]
    exact ⟨hp, fun t => by simp [processHomeworks, hp]⟩

/-- Witness for C3 at a concrete unknown-status record. -/
theorem spec_C3_witness :
    parse_status (PyVal.dict [("homework_name", PyVal.str "a"), ("status", PyVal.str "weird")]) =
      Except.error (PyExc.keyErrorUnknownStatus
        ("Домашней работе присвоен неизвестный статус. "
          ++ statusLookupErrStr (PyVal.str "weird"))) ∧
    processHomeworks
        [PyVal.dict [("homework_name", PyVal.str "a"), ("status", PyVal.str "weird")]] =
      ([], some (PyExc.keyErrorUnknownStatus
        ("Домашней работе присвоен неизвестный статус. "
          ++ statusLookupErrStr (PyVal.str "weird")))) := by
  have h := (spec_C3 [("homework_name", PyVal.str "a"), ("status", PyVal.str "weird")]).2.2
    (PyVal.str "weird") (PyVal.str "a") rfl rfl rfl rfl rfl
  exact ⟨h.1, h.2 []⟩

/-- C10 -- At `parse_status`'s interface a field bound to `None` is
indistinguishable from an absent field: binding `status`
(respectively `homework_name`) to `None` gives exactly the same result
as omitting the key, because `.get` is used and the `is None` check is
on the looked-up value. -/
theorem spec_C10 :
    ∀ rest : List (String × PyVal),
    (lookupKey rest "status" = Option.none →
      parse_status (PyVal.dict (("status", PyVal.none) :: rest)) =
        parse_status (PyVal.dict rest)) ∧
    (lookupKey rest "homework_name" = Option.none →
      parse_status (PyVal.dict (("homework_name", PyVal.none) :: rest)) =
        parse_status (PyVal.dict rest)) := by
  intro rest
  constructor
  · intro h
    simp [parse_status, lookupKey, h]
  · intro h
    simp only [parse_status, lookupKey, h]
    cases hs : lookupKey rest "status" with
    | none => simp [pyIsNone]
    | some sv => cases sv <;> simp [pyIsNone]

/-- Witness for C10 at concrete records. -/
theorem spec_C10_witness :
    parse_status (PyVal.dict [("status", PyVal.none), ("homework_name", PyVal.str "a")]) =
      parse_status (PyVal.dict [("homework_name", PyVal.str "a")]) ∧
    parse_status (PyVal.dict [("homework_name", PyVal.none), ("status", PyVal.str "approved")]) =
      parse_status (PyVal.dict [("status", PyVal.str "approved")]) :=
  ⟨(spec_C10 [("homework_name", PyVal.str "a")]).1 rfl,
   (spec_C10 [("status", PyVal.str "approved")]).2 rfl⟩

/-- C4 -- On a mapping input, `check_response` fails with
`CheckApiAnswerError` iff `homeworks` is absent, `current_date` is
absent, or `homeworks` is not a list; otherwise it succeeds and
returns the `homeworks` list unchanged, the empty list included (the
spec's example response yields `ok []`). -/
theorem spec_C4 :
    (∀ entries : List (String × PyVal),
      ((∃ m, check_response (PyVal.dict entries) =
          Except.error (PyExc.checkApiAnswerError m)) ↔
        (lookupKey entries "homeworks" = Option.none ∨
         lookupKey entries "current_date" = Option.none ∨
         ∀ hs, lookupKey entries "homeworks" ≠ some (PyVal.list hs))) ∧
      (∀ hs, lookupKey entries "homeworks" = some (PyVal.list hs) →
        lookupKey entries "current_date" ≠ Option.none →
        check_response (PyVal.dict entries) = Except.ok hs)) ∧
    check_response (PyVal.dict
        [("homeworks", PyVal.list []), ("current_date", PyVal.int 1234567890)]) =
      Except.ok [] := by
  refine ⟨fun entries => ⟨?_, ?_⟩, rfl⟩
  · cases hh : lookupKey entries "homeworks" with
    | none => simp [check_response, hh]
    | some hw =>
      cases hc : lookupKey entries "current_date" with
      | none => simp [check_response, hh, hc]
      | some cv =>
        cases hw with
        | list hs =>
          constructor
          · rintro ⟨m, hm⟩
            simp [check_response, hh, hc] at hm
          · rintro (h | h | h)
            · cases h
            · cases h
            · exact absurd rfl (h hs)
        | none => simp [check_response, hh, hc]
        | bool b => simp [check_response, hh, hc]
        | int n => simp [check_response, hh, hc]
        | str s => simp [check_response, hh, hc]
        | dict d => simp [check_response, hh, hc]
  · intro hs hh hc
    cases hcd : lookupKey entries "current_date" with
    | none => exact absurd hcd hc
    | some cv => simp [check_response, hh, hcd]

/-- Witness for C4 at a concrete valid response. -/
theorem spec_C4_witness :
    check_response (PyVal.dict
        [("homeworks", PyVal.list [PyVal.int 1]), ("current_date", PyVal.int 0)]) =
      Except.ok [PyVal.int 1] :=
  (spec_C4.1 [("homeworks", PyVal.list [PyVal.int 1]), ("current_date", PyVal.int 0)]).2
    [PyVal.int 1] rfl (by simp [lookupKey])

/-- C5 -- `check_response` fails with `ShapeError` (code: `TypeError`)
on every input that is not a mapping. -/
theorem spec_C5 :
    ∀ v : PyVal, (∀ entries, v ≠ PyVal.dict entries) →
      check_response v = Except.error (PyExc.typeError "Ответ передан не в формате dict") := by
  intro v hv
  cases v <;> first | rfl | exact absurd rfl (hv _)

/-- Witness for C5 at a concrete non-mapping input. -/
theorem spec_C5_witness :
    check_response (PyVal.int 5) =
      Except.error (PyExc.typeError "Ответ передан не в формате dict") :=
  spec_C5 (PyVal.int 5) (fun _ h => PyVal.noConfusion h)

/-- C6 -- `get_api_answer` classifies its outcome exactly as the spec
says: transport failure yields `ServerUnavailable` (code:
`ServerError`); a non-200 status yields `HTTPStatusError` carrying the
observed code; a 200 response with an undecodable body yields
`ServerUnavailable` (code: `ServerError`); a 200 response with a
decodable body returns the decoded structure. -/
theorem spec_C6 :
    (∀ e, get_api_answer (HttpOutcome.transportFail e) =
      Except.error (PyExc.serverError ("Сбой! Сервер не доступен! " ++ e ++ "."))) ∧
    (∀ code body, code ≠ 200 → get_api_answer (HttpOutcome.response code body) =
      Except.error (PyExc.httpStatusError code)) ∧
    (∀ e, get_api_answer (HttpOutcome.response 200 (Except.error e)) =
      Except.error (PyExc.serverError ("Сбой! Данные получены не в формате json! " ++ e ++ "."))) ∧
    (∀ j, get_api_answer (HttpOutcome.response 200 (Except.ok j)) = Except.ok j) := by
  refine ⟨fun e => rfl, fun code body h => ?_, fun e => rfl, fun j => rfl⟩
  simp [get_api_answer, h]

/-- Witness for C6 at a concrete non-200 response. -/
theorem spec_C6_witness :
    get_api_answer (HttpOutcome.response 404 (Except.ok PyVal.none)) =
      Except.error (PyExc.httpStatusError 404) :=
  spec_C6.2.1 404 (Except.ok PyVal.none) (by decide)

/-- A well-formed record parses to its composed message. -/
theorem parse_status_wellFormed (h : PyVal) (hw : wellFormedRecord h = true) :
    parse_status h = Except.ok (composedMessage h) := by
  cases h with
  | dict entries =>
    cases hn : (lookupKey entries "homework_name").getD PyVal.none <;>
      cases hst : (lookupKey entries "status").getD PyVal.none <;>
        simp [wellFormedRecord, hn, hst] at hw
    obtain ⟨v, hv⟩ := Option.isSome_iff_exists.mp hw
    simp [parse_status, composedMessage, hn, hst, statusTableLookup, hv, pyValStr, pyIsNone]
  | none => simp [wellFormedRecord] at hw
  | bool b => simp [wellFormedRecord] at hw
  | int n => simp [wellFormedRecord] at hw
  | str s => simp [wellFormedRecord] at hw
  | list l => simp [wellFormedRecord] at hw

/-- A list of well-formed records is notified in full, in order, with
no exception escaping the per-record loop. -/
theorem processHomeworks_wellFormed (hs : List PyVal)
    (h : ∀ x ∈ hs, wellFormedRecord x = true) :
    processHomeworks hs = (hs.map composedMessage, Option.none) := by
  induction hs with
  | nil => rfl
  | cons x t ih =>
    have hx := h x (List.mem_cons_self x t)
    have ht := ih (fun y hy => h y (List.mem_cons_of_mem x hy))
    simp [processHomeworks, parse_status_wellFormed x hx, ht]

/-- C1 -- For a valid response whose `homeworks` list holds N
well-formed records, one loop iteration attempts exactly N
notifications, the i-th carrying the composed message of the i-th
record in received order. -/
theorem spec_C1 :
    ∀ (hs : List PyVal) (d : PyVal) (ts now : Int),
      (∀ h ∈ hs, wellFormedRecord h = true) →
      (mainIter (HttpOutcome.response 200 (Except.ok (PyVal.dict
          [("homeworks", PyVal.list hs), ("current_date", d)]))) ts now).sent
        = hs.map composedMessage ∧
      (mainIter (HttpOutcome.response 200 (Except.ok (PyVal.dict
          [("homeworks", PyVal.list hs), ("current_date", d)]))) ts now).sent.length
        = hs.length := by
  intro hs d ts now hwf
  have hbody : iterBody (HttpOutcome.response 200 (Except.ok (PyVal.dict
      [("homeworks", PyVal.list hs), ("current_date", d)]))) =
      (hs.map composedMessage, Option.none) := by
    simp [iterBody, get_api_answer, check_response, lookupKey,
      processHomeworks_wellFormed hs hwf]
  constructor <;> simp [mainIter, hbody]

/-- Witness for C1 at a one-record response. -/
theorem spec_C1_witness :
    (mainIter (HttpOutcome.response 200 (Except.ok (PyVal.dict
        [("homeworks", PyVal.list [PyVal.dict
            [("homework_name", PyVal.str "hw"), ("status", PyVal.str "reviewing")]]),
         ("current_date", PyVal.int 7)]))) 0 5).sent
      = [PyVal.dict [("homework_name", PyVal.str "hw"),
          ("status", PyVal.str "reviewing")]].map composedMessage :=
  (spec_C1 _ _ 0 5 (by intro h hm; rw [List.mem_singleton] at hm; subst hm; rfl)).1

/-- C7 counterexample -- an iteration whose `try` body raises (here: a
transport failure) does NOT advance the cursor to the clock reading of
that iteration: with previous cursor 0 and clock 100, the next poll
still uses 0. -/
theorem spec_C7_counterexample :
    (mainIter (HttpOutcome.transportFail "connection refused") 0 100).newTs = 0 ∧
    (mainIter (HttpOutcome.transportFail "connection refused") 0 100).newTs ≠ 100 :=
  ⟨rfl, by decide⟩

/-- C7 (amended) -- the cursor is advanced to the iteration's clock
reading only when the `try` body completes without an exception; when
the body raises, the cursor keeps its previous value for the next
poll. -/
theorem spec_C7 :
    ∀ (w : HttpOutcome) (ts now : Int),
      ((iterBody w).2 = Option.none → (mainIter w ts now).newTs = now) ∧
      (∀ e, (iterBody w).2 = some e → (mainIter w ts now).newTs = ts) := by
  intro w ts now
  rcases hb : iterBody w with ⟨msgs, err⟩
  constructor
  · intro h
    simp at h
    subst h
    simp [mainIter, hb]
  · intro e h
    simp at h
    subst h
    simp [mainIter, hb]

/-- Witness for C7 at a concrete successful and a concrete failing
iteration. -/
theorem spec_C7_witness :
    (mainIter (HttpOutcome.response 200 (Except.ok (PyVal.dict
        [("homeworks", PyVal.list []), ("current_date", PyVal.int 1)]))) 0 55).newTs = 55 ∧
    (mainIter (HttpOutcome.transportFail "down") 3 55).newTs = 3 :=
  ⟨(spec_C7 _ 0 55).1 rfl,
   (spec_C7 _ 3 55).2 (PyExc.serverError "Сбой! Сервер не доступен! down.") rfl⟩

/-- C8 -- no exception raised while fetching, validating or parsing
ever escapes an iteration: `send_message` swallows every delivery
failure, an exception reaching the loop's top level turns into one
best-effort failure notification while the iteration still completes
normally, and the loop runs one iteration per oracle regardless of
outcomes. -/
theorem spec_C8 :
    (∀ (o : Except String Unit) (m : String), send_message o m = Except.ok ()) ∧
    (∀ (w : HttpOutcome) (ts now : Int) (msgs : List String) (e : PyExc),
      iterBody w = (msgs, some e) →
      mainIter w ts now = ⟨msgs ++ ["Сбой в работе программы: " ++ pyStr e], ts⟩) ∧
    (∀ (os : List (HttpOutcome × Int)) (ts : Int), (mainLoop os ts).length = os.length) := by
  refine ⟨fun o m => ?_, fun w ts now msgs e h => ?_, ?_⟩
  · cases o <;> rfl
  · simp [mainIter, h]
  · intro os
    induction os with
    | nil => intro ts; rfl
    | cons p t ih => intro ts; simp [mainLoop, ih]

/-- Witness for C8 at a concrete failing iteration. -/
theorem spec_C8_witness :
    mainIter (HttpOutcome.transportFail "x") 0 1 =
      ⟨["Сбой в работе программы: Сбой! Сервер не доступен! x."], 0⟩ :=
  spec_C8.2.1 (HttpOutcome.transportFail "x") 0 1 []
    (PyExc.serverError "Сбой! Сервер не доступен! x.") rfl

/-- C9 counterexample -- a credential that is present but empty makes
`check_tokens` return false, so "returns true iff all three are
present" fails: all three values below are present, yet the check is
false. -/
theorem spec_C9_counterexample :
    ((some "" : Option String).isSome = true ∧
     (some "BOT" : Option String).isSome = true ∧
     (some "42" : Option String).isSome = true) ∧
    check_tokens (some "") (some "BOT") (some "42") = false := by
  decide

/-- C9 (amended) -- `check_tokens` returns true iff all three
credential values are truthy (present and non-empty); `main` discards
the result and enters the poll loop regardless. -/
theorem spec_C9 :
    (∀ p t c : Option String,
      check_tokens p t c = true ↔
        (truthyStr p = true ∧ truthyStr t = true ∧ truthyStr c = true)) ∧
    (∀ (p t c : Option String) (oracles : List (HttpOutcome × Int)) (ts : Int),
      main_run p t c oracles ts = mainLoop oracles ts) := by
  refine ⟨fun p t c => ?_, fun _ _ _ _ _ => rfl⟩
  simp [check_tokens, Bool.and_eq_true, and_assoc]
